import Mathlib

/-!
Verification of the buffer and framebuffer backend of luminance-rs
(`src/luminance/src/backend/gl/buffer.rs` and
`src/luminance/src/backend/framebuffer.rs`), as a shallow embedding.

Modelling conventions:
- machine pointers are natural numbers, `0` standing for the null pointer;
- the element type `T` of a Rust buffer is a Lean type `α` together with an
  explicit element size `sz : Nat` (Rust's `mem::size_of::<T>()`);
- the contents of a device buffer are a function `Nat → α` giving the element
  readable at each index;
- effects on the shared device state (`state.borrow_mut()` calls and raw GL
  calls) are recorded as a trace `List GLCall`, and the spec-modelled binding
  cache `GLState` interprets those calls;
- fresh identifiers chosen by the driver (`glGenBuffers` handles, `glMapBuffer`
  pointers) are parameters of the embedded functions.
-/

namespace Luminance

variable {α : Type}

/-- Bind mode taken by the device-state binding cache
(`crate::backend::gl::state::Bind`, re-exported to `buffer.rs`). Modelled from
the spec glossary: a cached bind may skip the device call, a forced bind always
issues it. -/
inductive Bind where
  | Forced
  | Cached
deriving DecidableEq

/-- Access mode passed to `gl::MapBuffer`. -/
inductive MapAccess where
  | READ_ONLY
  | WRITE_ONLY
  | READ_WRITE
deriving DecidableEq

/-- One call made by the buffer backend, either to the device-state cache
(`BindArrayBuffer`, `UnbindBuffer`) or directly to the device. -/
inductive GLCall where
  | GenBuffers (handle : Nat)
  | BindArrayBuffer (handle : Nat) (bind : Bind)
  | BufferData (bytes : Nat)
  | MapBuffer (access : MapAccess)
  | UnmapBuffer
  | DeleteBuffers (handle : Nat)
  | UnbindBuffer (handle : Nat)
deriving DecidableEq

/-- Modelled from the spec: `GLState` (`src/luminance/src/backend/gl/state.rs`
is not among the sources). The Device State is a binding cache holding the
currently bound array-buffer identifier, shared by every resource. -/
structure GLState where
  boundArrayBuffer : Option Nat
deriving DecidableEq

/-- Modelled from the spec: `GLState::bind_array_buffer`. A cached bind skips
the device call when the cache already shows the target bound; a forced bind
always issues it. Returns the new cache state and whether the device bind call
was issued. -/
def bind_array_buffer (s : GLState) (handle : Nat) (bind : Bind) : GLState × Bool :=
  match bind with
  | Bind.Forced => ({ boundArrayBuffer := some handle }, true)
  | Bind.Cached =>
    if s.boundArrayBuffer = some handle then (s, false)
    else ({ boundArrayBuffer := some handle }, true)

/-- Modelled from the spec: `GLState::unbind_buffer` releases the handle from
the binding cache, so a destroyed buffer is not left recorded as bound. -/
def unbind_buffer (s : GLState) (handle : Nat) : GLState :=
  if s.boundArrayBuffer = some handle then { boundArrayBuffer := none } else s

/-- Effect of one recorded call on the spec-modelled binding cache. Raw device
calls (`BufferData`, `MapBuffer`, ...) do not touch the cache. -/
def applyCall (s : GLState) (c : GLCall) : GLState :=
  match c with
  | GLCall.BindArrayBuffer h b => (bind_array_buffer s h b).1
  | GLCall.UnbindBuffer h => unbind_buffer s h
  | _ => s

/-- Effect of a trace of calls on the binding cache. -/
def applyCalls (s : GLState) (cs : List GLCall) : GLState :=
  cs.foldl applyCall s

/-- Buffer backend error type (`crate::backend::buffer::BufferError`, as used
by `buffer.rs`): overflow on indexed writes, size mismatches on bulk writes,
and mapping failure. -/
inductive BufferError where
  | Overflow (index : Nat) (buffer_len : Nat)
  | TooFewValues (provided_len : Nat) (buffer_len : Nat)
  | TooManyValues (provided_len : Nat) (buffer_len : Nat)
  | MapFailed
deriving DecidableEq

/-- Embeds `RawBuffer` (buffer.rs lines 18-24): device handle, total byte
size, element count. The `state : Rc<RefCell<GLState>>` field is the shared
binding cache, modelled by threading `GLState` through the recorded traces. -/
structure RawBuffer where
  handle : Nat
  bytes : Nat
  len : Nat
deriving DecidableEq

/-- A Rust `Vec` seen as its raw parts: backing pointer, length, capacity,
and the values readable through the pointer at the moment it was built. -/
structure RustVec (α : Type) where
  ptr : Nat
  len : Nat
  cap : Nat
  data : List α
deriving DecidableEq

/-- Rust `Vec::from_raw_parts(ptr, length, capacity)`: wraps an existing raw
pointer into a `Vec` without copying; the resulting vector is backed by `ptr`
itself. -/
def vecFromRawParts (ptr len cap : Nat) (data : List α) : RustVec α :=
  { ptr := ptr, len := len, cap := cap, data := data }

/-- Embeds `new_buffer` (buffer.rs lines 31-56): `bytes = size_of::<T>() * len`;
generates a handle (`fresh`, chosen by the driver), binds it with
`Bind::Forced`, allocates `bytes` bytes with `BufferData`, and returns the
representation. The backing store is uninitialized. -/
def new_buffer (sz : Nat) (fresh : Nat) (len : Nat) :
    Except BufferError RawBuffer × List GLCall :=
  let bytes := sz * len
  (Except.ok { handle := fresh, bytes := bytes, len := len },
   [GLCall.GenBuffers fresh, GLCall.BindArrayBuffer fresh Bind.Forced,
    GLCall.BufferData bytes])

/-- Embeds `destroy_buffer` (buffer.rs lines 58-61): releases the handle from
the Device State binding cache with `unbind_buffer`, then deletes the device
object with `DeleteBuffers`, in that order. -/
def destroy_buffer (buffer : RawBuffer) : List GLCall :=
  [GLCall.UnbindBuffer buffer.handle, GLCall.DeleteBuffers buffer.handle]

/-- Embeds `len` (buffer.rs lines 63-65). -/
def buffer_len (buffer : RawBuffer) : Nat :=
  buffer.len

/-- Embeds `from_slice` (buffer.rs lines 67-94): `len = slice.len()`,
`bytes = size_of::<T>() * len`; generates a handle, binds it with
`Bind::Cached`, and uploads the slice with `BufferData`. The new contents are
the `bytes` bytes copied from the slice (as elements: `bytes / sz` of them
when `sz > 0`, none when `sz = 0`), over uninitialized memory `init`. -/
def from_slice (sz : Nat) (fresh : Nat) (slice : List α) (init : Nat → α) :
    Except BufferError RawBuffer × (Nat → α) × List GLCall :=
  let len := slice.length
  let bytes := sz * len
  let k := if sz = 0 then 0 else bytes / sz
  (Except.ok { handle := fresh, bytes := bytes, len := len },
   fun j => if j < k then slice.getD j (init j) else init j,
   [GLCall.GenBuffers fresh, GLCall.BindArrayBuffer fresh Bind.Cached,
    GLCall.BufferData bytes])

/-- Embeds `at` (buffer.rs lines 106-123; `at` is reserved in Lean): `none`
when `i >= buffer.len`, otherwise a cached bind, a read-only map, a one-element
read, and an unmap. -/
def at_ (buffer : RawBuffer) (contents : Nat → α) (i : Nat) :
    Option α × List GLCall :=
  if i ≥ buffer.len then (none, [])
  else (some (contents i),
    [GLCall.BindArrayBuffer buffer.handle Bind.Cached,
     GLCall.MapBuffer MapAccess.READ_ONLY, GLCall.UnmapBuffer])

/-- Embeds `whole` (buffer.rs lines 125-138): a cached bind, then
`gl::MapBuffer(READ_ONLY)` returning the driver mapping pointer `p` (a model
parameter), then `Vec::from_raw_parts(ptr, len, len)` wrapping that very
pointer — no copy — then `gl::UnmapBuffer`, then the wrapped vector is
returned. The middle component is the mapping state on return: `none` means
the ARRAY_BUFFER mapping has been removed. -/
def whole (buffer : RawBuffer) (contents : Nat → α) (p : Nat) :
    RustVec α × Option Nat × List GLCall :=
  let values := vecFromRawParts p buffer.len buffer.len
    ((List.range buffer.len).map contents)
  (values, none,
   [GLCall.BindArrayBuffer buffer.handle Bind.Cached,
    GLCall.MapBuffer MapAccess.READ_ONLY, GLCall.UnmapBuffer])

/-- Embeds `set` (buffer.rs lines 140-160): `Overflow { index, buffer_len }`
when `i >= buffer.len`, otherwise a cached bind, a write-only map, a
one-element write, and an unmap. The middle component is the contents after
the call. -/
def set (buffer : RawBuffer) (contents : Nat → α) (i : Nat) (x : α) :
    Except BufferError Unit × (Nat → α) × List GLCall :=
  if i ≥ buffer.len then
    (Except.error (BufferError.Overflow i buffer.len), contents, [])
  else
    (Except.ok (), (fun j => if j = i then x else contents j),
     [GLCall.BindArrayBuffer buffer.handle Bind.Cached,
      GLCall.MapBuffer MapAccess.WRITE_ONLY, GLCall.UnmapBuffer])

/-- Embeds `write_whole` (buffer.rs lines 162-194): `in_bytes = len * size_of`
is compared with `buffer.bytes` by `cmp`; `Less` returns `TooFewValues`,
`Greater` returns `TooManyValues`, both before any device call, leaving the
contents untouched; on equality `real_bytes = in_bytes` bytes are copied from
`values` over the front of the mapped store (as elements: `real_bytes / sz` of
them when `sz > 0`, none when `sz = 0`). The middle component is the contents
after the call. -/
def write_whole (sz : Nat) (buffer : RawBuffer) (contents : Nat → α)
    (values : List α) :
    Except BufferError Unit × (Nat → α) × List GLCall :=
  let len := values.length
  let in_bytes := len * sz
  match compare in_bytes buffer.bytes with
  | Ordering.lt =>
    (Except.error (BufferError.TooFewValues len buffer.len), contents, [])
  | Ordering.gt =>
    (Except.error (BufferError.TooManyValues len buffer.len), contents, [])
  | Ordering.eq =>
    let real_bytes := in_bytes
    let k := if sz = 0 then 0 else real_bytes / sz
    (Except.ok (),
     (fun j => if j < k then values.getD j (contents j) else contents j),
     [GLCall.BindArrayBuffer buffer.handle Bind.Cached,
      GLCall.MapBuffer MapAccess.WRITE_ONLY, GLCall.UnmapBuffer])

/-- Embeds `clear` (buffer.rs lines 196-201): `write_whole` of
`vec![x; buffer.len]`. -/
def clear (sz : Nat) (buffer : RawBuffer) (contents : Nat → α) (x : α) :
    Except BufferError Unit × (Nat → α) × List GLCall :=
  write_whole sz buffer contents (List.replicate buffer.len x)

/-- Embeds `repeat` (buffer.rs lines 96-104; `repeat` is reserved in Lean):
`new_buffer(len)?` then `clear(value)?`, propagating either error. -/
def repeat_ (sz : Nat) (fresh : Nat) (init : Nat → α) (len : Nat) (value : α) :
    Except BufferError (RawBuffer × (Nat → α)) × List GLCall :=
  match new_buffer sz fresh len with
  | (Except.error e, tr) => (Except.error e, tr)
  | (Except.ok buf, tr) =>
    match clear sz buf init value with
    | (Except.error e, _, tr2) => (Except.error e, tr ++ tr2)
    | (Except.ok _, contents, tr2) => (Except.ok (buf, contents), tr ++ tr2)

/-- Embeds `BufferSlice<T>` (buffer.rs lines 204-207): a clone of the owning
buffer representation plus the raw mapping pointer. -/
structure BufferSlice where
  buffer : RawBuffer
  ptr : Nat
deriving DecidableEq

/-- Embeds `BufferSliceMut<T>` (buffer.rs lines 209-212). -/
structure BufferSliceMut where
  buffer : RawBuffer
  ptr : Nat
deriving DecidableEq

/-- Embeds `slice_buffer` (buffer.rs lines 219-233): a cached bind, then
`gl::MapBuffer(READ_ONLY)` returning pointer `p` (model parameter, `0` for
null), then `buffer.clone()`; `MapFailed` when the pointer is null, otherwise
a slice holding the clone and the pointer. -/
def slice_buffer (buffer : RawBuffer) (p : Nat) :
    Except BufferError BufferSlice × List GLCall :=
  let tr := [GLCall.BindArrayBuffer buffer.handle Bind.Cached,
             GLCall.MapBuffer MapAccess.READ_ONLY]
  if p = 0 then (Except.error BufferError.MapFailed, tr)
  else (Except.ok { buffer := buffer, ptr := p }, tr)

/-- Embeds `slice_buffer_mut` (buffer.rs lines 235-251): as `slice_buffer`
but with a `READ_WRITE` mapping. -/
def slice_buffer_mut (buffer : RawBuffer) (p : Nat) :
    Except BufferError BufferSliceMut × List GLCall :=
  let tr := [GLCall.BindArrayBuffer buffer.handle Bind.Cached,
             GLCall.MapBuffer MapAccess.READ_WRITE]
  if p = 0 then (Except.error BufferError.MapFailed, tr)
  else (Except.ok { buffer := buffer, ptr := p }, tr)

/-- Embeds `destroy_buffer_slice` (buffer.rs lines 253-260): a cached rebind
of the owning buffer and an unmap. The function body assigns none of the
slice's fields, so the returned representation is the input unchanged. -/
def destroy_buffer_slice (slice : BufferSlice) : BufferSlice × List GLCall :=
  (slice,
   [GLCall.BindArrayBuffer slice.buffer.handle Bind.Cached, GLCall.UnmapBuffer])

/-- Embeds `destroy_buffer_slice_mut` (buffer.rs lines 262-269). -/
def destroy_buffer_slice_mut (slice : BufferSliceMut) :
    BufferSliceMut × List GLCall :=
  (slice,
   [GLCall.BindArrayBuffer slice.buffer.handle Bind.Cached, GLCall.UnmapBuffer])

/-- Embeds `obtain_slice` (buffer.rs lines 271-273): the typed view over the
mapping pointer, of length the owning buffer's element count. -/
def obtain_slice (slice : BufferSlice) : Except BufferError (Nat × Nat) :=
  Except.ok (slice.ptr, slice.buffer.len)

/-- Embeds `obtain_slice_mut` (buffer.rs lines 275-277). -/
def obtain_slice_mut (slice : BufferSliceMut) : Except BufferError (Nat × Nat) :=
  Except.ok (slice.ptr, slice.buffer.len)

/-- Modelled from the spec: `TextureError`
(`src/luminance/src/backend/texture.rs` is not among the sources). The spec
treats texture errors as opaque payloads that are propagated unchanged, so the
model carries an abstract code. -/
structure TextureError where
  code : Nat
deriving DecidableEq

/-- Embeds `IncompleteReason` (framebuffer.rs lines 48-67): the reason a
framebuffer is incomplete. -/
inductive IncompleteReason where
  | Undefined
  | IncompleteAttachment
  | MissingAttachment
  | IncompleteDrawBuffer
  | IncompleteReadBuffer
  | Unsupported
  | IncompleteMultisample
  | IncompleteLayerTargets
deriving DecidableEq

/-- Embeds `FramebufferError` (framebuffer.rs lines 13-24): either a texture
error raised while associating the slots, or an incompleteness reason raised
while finalizing construction. -/
inductive FramebufferError where
  | TextureError (e : Luminance.TextureError)
  | Incomplete (r : IncompleteReason)
deriving DecidableEq

/-- Embeds `impl From<TextureError> for FramebufferError` (framebuffer.rs
lines 36-40). -/
def FramebufferError.from_texture_error (e : Luminance.TextureError) :
    FramebufferError :=
  FramebufferError.TextureError e

/-- Embeds `impl From<IncompleteReason> for FramebufferError` (framebuffer.rs
lines 42-46). -/
def FramebufferError.from_incomplete_reason (r : IncompleteReason) :
    FramebufferError :=
  FramebufferError.Incomplete r

/-! Helper lemmas shared by the claim theorems. -/

/-- The `Ordering::Less` branch of `write_whole`: fewer input bytes than the
buffer holds returns `TooFewValues` before any device call. -/
theorem write_whole_of_lt (sz : Nat) (b : RawBuffer) (contents : Nat → α)
    (values : List α) (h : values.length * sz < b.bytes) :
    write_whole sz b contents values =
      (Except.error (BufferError.TooFewValues values.length b.len),
       contents, ([] : List GLCall)) := by
  have hc : compare (values.length * sz) b.bytes = Ordering.lt :=
    Nat.compare_eq_lt.2 h
  simp [write_whole, hc]

/-- The `Ordering::Greater` branch of `write_whole`. -/
theorem write_whole_of_gt (sz : Nat) (b : RawBuffer) (contents : Nat → α)
    (values : List α) (h : b.bytes < values.length * sz) :
    write_whole sz b contents values =
      (Except.error (BufferError.TooManyValues values.length b.len),
       contents, ([] : List GLCall)) := by
  have hc : compare (values.length * sz) b.bytes = Ordering.gt :=
    Nat.compare_eq_gt.2 h
  simp [write_whole, hc]

/-- The `Ordering::Equal` branch of `write_whole`: `real_bytes = in_bytes`
bytes are copied over the front of the store. -/
theorem write_whole_of_eq (sz : Nat) (b : RawBuffer) (contents : Nat → α)
    (values : List α) (h : values.length * sz = b.bytes) :
    write_whole sz b contents values =
      (Except.ok (),
       (fun j => if j < (if sz = 0 then 0 else values.length * sz / sz)
                 then values.getD j (contents j) else contents j),
       [GLCall.BindArrayBuffer b.handle Bind.Cached,
        GLCall.MapBuffer MapAccess.WRITE_ONLY, GLCall.UnmapBuffer]) := by
  have hc : compare (values.length * sz) b.bytes = Ordering.eq :=
    Nat.compare_eq_eq.2 h
  simp [write_whole, hc]

/-- Reading inside a replicated list yields the replicated value. -/
theorem replicate_getD (n j : Nat) (a d : α) (h : j < n) :
    (List.replicate n a).getD j d = a := by
  rw [List.getD_eq_getElem?_getD, List.getElem?_replicate, if_pos h]
  rfl

/-! Claim theorems. -/

/-- C1: evaluation of `whole` at the failing input. On a one-element buffer,
the vector returned by `whole` is backed by pointer `100` — the very pointer
`gl::MapBuffer` returned — and the mapping state on return is `none`
(unmapped): `whole` hands back a view of unmapped driver memory built by
`Vec::from_raw_parts`, not a fresh owned copy of the backing store. -/
theorem whole_returns_view_of_unmapped_mapping :
    ((whole { handle := 1, bytes := 4, len := 1 }
        (fun _ => (42 : Nat)) 100).1.ptr = 100) ∧
    ((whole { handle := 1, bytes := 4, len := 1 }
        (fun _ => (42 : Nat)) 100).2.1 = none) ∧
    ((whole { handle := 1, bytes := 4, len := 1 }
        (fun _ => (42 : Nat)) 100).1.data = [42]) :=
  ⟨rfl, rfl, rfl⟩

/-- C2 counterexample: `from_slice` binds its freshly generated handle with
`Bind::Cached`, not `Bind::Forced` — the trace of a concrete run contains a
cached bind of the fresh handle and no forced bind at all. -/
theorem from_slice_cached_bind_counterexample :
    GLCall.BindArrayBuffer 1 Bind.Cached ∈
      (from_slice 4 1 [(0 : Nat), 0] (fun _ => 0)).2.2 ∧
    GLCall.BindArrayBuffer 1 Bind.Forced ∉
      (from_slice 4 1 [(0 : Nat), 0] (fun _ => 0)).2.2 := by
  refine ⟨?_, ?_⟩ <;> decide

/-- C2 (amended): `new_buffer` binds the freshly generated handle with a
forced bind immediately after creation, but `from_slice` binds its fresh
handle with a cached bind. -/
theorem creation_bind_modes (sz fresh len : Nat) (slice : List α)
    (init : Nat → α) :
    (new_buffer sz fresh len).2 =
      [GLCall.GenBuffers fresh, GLCall.BindArrayBuffer fresh Bind.Forced,
       GLCall.BufferData (sz * len)] ∧
    (from_slice sz fresh slice init).2.2 =
      [GLCall.GenBuffers fresh, GLCall.BindArrayBuffer fresh Bind.Cached,
       GLCall.BufferData (sz * slice.length)] :=
  ⟨rfl, rfl⟩

/-- C3 counterexample: for a zero-sized element type (`sz = 0`), a buffer of
element count 2 created by `new_buffer` accepts a `write_whole` of a single
value — the claim demands `TooFewValues` for every element type whenever the
provided sequence is shorter than the element count. -/
theorem write_whole_zero_size_counterexample :
    (new_buffer 0 7 2).1 = Except.ok { handle := 7, bytes := 0, len := 2 } ∧
    (1 : Nat) < 2 ∧
    (write_whole 0 { handle := 7, bytes := 0, len := 2 }
      (fun _ => (0 : Nat)) [5]).1 = Except.ok () := by
  refine ⟨rfl, by decide, rfl⟩

/-- C3 (amended): for every element type of NONZERO size and every buffer
satisfying the creation invariant `bytes = sz * len`, `write_whole` fails with
`TooFewValues{provided, expected}` when the sequence is shorter than the
element count, fails with `TooManyValues{provided, expected}` when longer, and
succeeds overwriting the whole buffer exactly on a length match; on either
failure the prior contents are unchanged. (For zero-sized element types the
byte comparison degenerates and every length is accepted.) -/
theorem write_whole_length_spec (sz : Nat) (b : RawBuffer) (contents : Nat → α)
    (values : List α) (hsz : 0 < sz) (hb : b.bytes = sz * b.len) :
    (values.length < b.len →
      (write_whole sz b contents values).1 =
        Except.error (BufferError.TooFewValues values.length b.len) ∧
      (write_whole sz b contents values).2.1 = contents) ∧
    (b.len < values.length →
      (write_whole sz b contents values).1 =
        Except.error (BufferError.TooManyValues values.length b.len) ∧
      (write_whole sz b contents values).2.1 = contents) ∧
    (values.length = b.len →
      (write_whole sz b contents values).1 = Except.ok () ∧
      ∀ j, j < b.len →
        (write_whole sz b contents values).2.1 j =
          values.getD j (contents j)) := by
  refine ⟨fun h => ?_, fun h => ?_, fun h => ?_⟩
  · have hlt : values.length * sz < b.bytes := by
      rw [hb, Nat.mul_comm sz b.len]
      exact (Nat.mul_lt_mul_right hsz).2 h
    rw [write_whole_of_lt sz b contents values hlt]
    exact ⟨rfl, rfl⟩
  · have hgt : b.bytes < values.length * sz := by
      rw [hb, Nat.mul_comm sz b.len]
      exact (Nat.mul_lt_mul_right hsz).2 h
    rw [write_whole_of_gt sz b contents values hgt]
    exact ⟨rfl, rfl⟩
  · have heq : values.length * sz = b.bytes := by
      rw [hb, h, Nat.mul_comm]
    rw [write_whole_of_eq sz b contents values heq]
    refine ⟨rfl, fun j hj => ?_⟩
    have hk : (if sz = 0 then 0 else values.length * sz / sz) =
        values.length := by
      rw [if_neg (by omega)]
      exact Nat.mul_div_cancel values.length hsz
    dsimp only
    rw [hk, if_pos (by omega)]

/-- C3 witness: a 2-element buffer of 4-byte elements rejects a 1-element
bulk write with `TooFewValues{1, 2}`. -/
theorem write_whole_length_spec_witness :
    (write_whole 4 { handle := 1, bytes := 8, len := 2 }
      (fun _ => (0 : Nat)) [9]).1 =
      Except.error (BufferError.TooFewValues 1 2) :=
  ((write_whole_length_spec 4 { handle := 1, bytes := 8, len := 2 }
      (fun _ => (0 : Nat)) [9] (by decide) (by decide)).1 (by decide)).1

/-- C4: `at` returns `some` of the stored element exactly below the element
count and `none` from the element count on; `set` fails with
`Overflow{index, buffer_len}` exactly when the index reaches the element
count, and otherwise writes the single element, leaving every other index
unchanged. -/
theorem at_set_bounds (b : RawBuffer) (contents : Nat → α) (i : Nat) (x : α) :
    (i < b.len → (at_ b contents i).1 = some (contents i)) ∧
    (i ≥ b.len → (at_ b contents i).1 = none) ∧
    ((set b contents i x).1 =
        Except.error (BufferError.Overflow i b.len) ↔ i ≥ b.len) ∧
    (i < b.len →
      (set b contents i x).1 = Except.ok () ∧
      (set b contents i x).2.1 i = x ∧
      ∀ j, j ≠ i → (set b contents i x).2.1 j = contents j) := by
  refine ⟨fun h => ?_, fun h => ?_, ⟨fun hset => ?_, fun h => ?_⟩, fun h => ?_⟩
  · simp only [at_]
    rw [if_neg (by omega)]
  · simp only [at_]
    rw [if_pos h]
  · by_contra hge
    simp only [set] at hset
    rw [if_neg hge] at hset
    simp at hset
  · simp only [set]
    rw [if_pos h]
  · have hne : ¬ i ≥ b.len := by omega
    refine ⟨?_, ?_, fun j hj => ?_⟩
    · simp only [set]
      rw [if_neg hne]
    · simp only [set]
      rw [if_neg hne]
      simp
    · simp only [set]
      rw [if_neg hne]
      simp [hj]

/-- C4 witness: on a 4-element buffer holding `j + 10` at index `j`, `at` at
index 2 returns `some 12`. -/
theorem at_set_bounds_witness :
    (at_ { handle := 1, bytes := 16, len := 4 }
      (fun j => j + 10) 2).1 = some 12 :=
  (at_set_bounds { handle := 1, bytes := 16, len := 4 }
    (fun j => j + 10) 2 0).1 (by decide)

/-- C5: `repeat` is `new_buffer` followed by `clear`: it succeeds, the buffer
has element count `len`, and reading everything back yields `len` copies of
the value. The hypothesis is the faithful size model of a Rust type: either
the element size is positive, or the type is zero-sized and then it has a
single value. -/
theorem repeat_fills (sz fresh len : Nat) (init : Nat → α) (value : α)
    (p : Nat) (hα : 0 < sz ∨ ∀ a b : α, a = b) :
    ∃ buf contents,
      (repeat_ sz fresh init len value).1 = Except.ok (buf, contents) ∧
      buf.len = len ∧
      (whole buf contents p).1.data = List.replicate len value := by
  have hrep : (List.replicate len value).length * sz = sz * len := by
    simp [Nat.mul_comm]
  have hw := write_whole_of_eq sz { handle := fresh, bytes := sz * len, len := len }
    init (List.replicate len value) hrep
  refine ⟨{ handle := fresh, bytes := sz * len, len := len },
    (fun j => if j < (if sz = 0 then 0
                      else (List.replicate len value).length * sz / sz)
              then (List.replicate len value).getD j (init j) else init j),
    ?_, rfl, ?_⟩
  · simp only [repeat_, new_buffer, clear]
    rw [hw]
  · rw [List.eq_replicate_iff]
    constructor
    · simp [whole, vecFromRawParts]
    · intro b hb
      simp only [whole, vecFromRawParts, List.mem_map, List.mem_range] at hb
      obtain ⟨j, hj, hbj⟩ := hb
      rcases hα with hsz | huniq
      · have hk : (if sz = 0 then 0
            else (List.replicate len value).length * sz / sz) = len := by
          rw [if_neg (by omega), List.length_replicate]
          exact Nat.mul_div_cancel len hsz
        rw [← hbj]
        rw [hk, if_pos hj]
        exact replicate_getD len j value (init j) hj
      · rw [← hbj]
        exact huniq _ _

/-- C5 witness: the spec scenario `repeat(3, 7)` — the buffer reads back as
`[7, 7, 7]`. -/
theorem repeat_fills_witness :
    ∃ buf contents,
      (repeat_ 4 1 (fun _ => (0 : Nat)) 3 7).1 = Except.ok (buf, contents) ∧
      buf.len = 3 ∧
      (whole buf contents 100).1.data = List.replicate 3 7 :=
  repeat_fills 4 1 3 (fun _ => (0 : Nat)) 7 100 (Or.inl (by decide))

/-- C6: `slice_buffer` and `slice_buffer_mut` fail with `MapFailed` exactly
when the device returns the null mapping pointer; otherwise each returns a
slice holding the mapping pointer together with a clone of the owning buffer
representation. -/
theorem slice_buffer_map_failed (b : RawBuffer) (p q : Nat) :
    ((slice_buffer b p).1 = Except.error BufferError.MapFailed ↔ p = 0) ∧
    (p ≠ 0 → (slice_buffer b p).1 = Except.ok { buffer := b, ptr := p }) ∧
    ((slice_buffer_mut b q).1 = Except.error BufferError.MapFailed ↔ q = 0) ∧
    (q ≠ 0 → (slice_buffer_mut b q).1 = Except.ok { buffer := b, ptr := q }) := by
  by_cases hp : p = 0 <;> by_cases hq : q = 0 <;>
    simp [slice_buffer, slice_buffer_mut, hp, hq]

/-- C6 witness: a non-null mapping pointer yields a read slice holding that
pointer and the owning buffer. -/
theorem slice_buffer_map_failed_witness :
    (slice_buffer { handle := 2, bytes := 8, len := 2 } 77).1 =
      Except.ok { buffer := { handle := 2, bytes := 8, len := 2 }, ptr := 77 } :=
  (slice_buffer_map_failed { handle := 2, bytes := 8, len := 2 } 77 77).2.1
    (by decide)

/-- C7: `destroy_buffer` first releases the handle from the Device State
binding cache (`UnbindBuffer`) and only then issues the device deletion
(`DeleteBuffers`); interpreting the trace on any starting cache state, the
destroyed handle is never left recorded as currently bound. -/
theorem destroy_buffer_unbind_before_delete (b : RawBuffer) (st : GLState) :
    destroy_buffer b =
      [GLCall.UnbindBuffer b.handle, GLCall.DeleteBuffers b.handle] ∧
    (applyCalls st (destroy_buffer b)).boundArrayBuffer ≠ some b.handle := by
  refine ⟨rfl, ?_⟩
  by_cases hcase : st.boundArrayBuffer = some b.handle <;>
    simp [destroy_buffer, applyCalls, applyCall, unbind_buffer, hcase]

/-- C7 witness: destroying the buffer bound in the cache leaves the cache not
pointing at it. -/
theorem destroy_buffer_unbind_before_delete_witness :
    destroy_buffer { handle := 5, bytes := 8, len := 2 } =
      [GLCall.UnbindBuffer 5, GLCall.DeleteBuffers 5] ∧
    (applyCalls { boundArrayBuffer := some 5 }
      (destroy_buffer { handle := 5, bytes := 8, len := 2 })).boundArrayBuffer
      ≠ some 5 :=
  destroy_buffer_unbind_before_delete { handle := 5, bytes := 8, len := 2 }
    { boundArrayBuffer := some 5 }

/-- C8: framebuffer errors are constructible by conversion from either cause:
converting a texture error wraps it unchanged in `TextureError`, converting an
incompleteness reason wraps it in `Incomplete`; the conversion from texture
errors is injective (the inner error is recoverable unchanged), and
`IncompleteReason` consists of exactly the eight pairwise distinct reasons. -/
theorem framebuffer_error_taxonomy :
    (∀ e : Luminance.TextureError,
      FramebufferError.from_texture_error e = FramebufferError.TextureError e) ∧
    (∀ r : IncompleteReason,
      FramebufferError.from_incomplete_reason r =
        FramebufferError.Incomplete r) ∧
    (∀ e e2 : Luminance.TextureError,
      FramebufferError.from_texture_error e =
        FramebufferError.from_texture_error e2 → e = e2) ∧
    (∀ r : IncompleteReason,
      r = IncompleteReason.Undefined ∨
      r = IncompleteReason.IncompleteAttachment ∨
      r = IncompleteReason.MissingAttachment ∨
      r = IncompleteReason.IncompleteDrawBuffer ∨
      r = IncompleteReason.IncompleteReadBuffer ∨
      r = IncompleteReason.Unsupported ∨
      r = IncompleteReason.IncompleteMultisample ∨
      r = IncompleteReason.IncompleteLayerTargets) ∧
    List.Nodup [IncompleteReason.Undefined,
      IncompleteReason.IncompleteAttachment,
      IncompleteReason.MissingAttachment,
      IncompleteReason.IncompleteDrawBuffer,
      IncompleteReason.IncompleteReadBuffer,
      IncompleteReason.Unsupported,
      IncompleteReason.IncompleteMultisample,
      IncompleteReason.IncompleteLayerTargets] := by
  refine ⟨fun e => rfl, fun r => rfl, fun e e2 h => ?_, fun r => ?_, by decide⟩
  · simpa [FramebufferError.from_texture_error] using h
  · cases r <;> simp

/-- C8 witness: a concrete texture error converts to the `TextureError`
variant with the inner error unchanged. -/
theorem framebuffer_error_taxonomy_witness :
    FramebufferError.from_texture_error { code := 3 } =
      FramebufferError.TextureError { code := 3 } :=
  framebuffer_error_taxonomy.1 { code := 3 }

/-- C9: closing a slice performs exactly a cached rebind of the owning buffer
and an unmap, never a device deletion, and leaves the slice's owning buffer
representation — handle, byte size and element count — unchanged. -/
theorem destroy_slice_preserves_buffer (s : BufferSlice) (t : BufferSliceMut) :
    (destroy_buffer_slice s).1 = s ∧
    (destroy_buffer_slice s).2 =
      [GLCall.BindArrayBuffer s.buffer.handle Bind.Cached,
       GLCall.UnmapBuffer] ∧
    (∀ h, GLCall.DeleteBuffers h ∉ (destroy_buffer_slice s).2) ∧
    (destroy_buffer_slice_mut t).1 = t ∧
    (destroy_buffer_slice_mut t).2 =
      [GLCall.BindArrayBuffer t.buffer.handle Bind.Cached,
       GLCall.UnmapBuffer] ∧
    (∀ h, GLCall.DeleteBuffers h ∉ (destroy_buffer_slice_mut t).2) := by
  refine ⟨rfl, rfl, fun h => ?_, rfl, rfl, fun h => ?_⟩ <;>
    simp [destroy_buffer_slice, destroy_buffer_slice_mut]

/-- C9 witness: closing a concrete slice returns it unchanged and deletes
nothing. -/
theorem destroy_slice_preserves_buffer_witness :
    (destroy_buffer_slice ⟨⟨3, 4, 1⟩, 9⟩).1 = (⟨⟨3, 4, 1⟩, 9⟩ : BufferSlice) :=
  (destroy_slice_preserves_buffer ⟨⟨3, 4, 1⟩, 9⟩ ⟨⟨3, 4, 1⟩, 9⟩).1

/-- C10: `write_whole` decides the size mismatch by comparing total byte
counts — provided length times element size against the buffer's byte size —
and therefore, for a zero-sized element type (where the buffer's byte size is
zero), it succeeds for a provided sequence of any length. -/
theorem write_whole_byte_counts (sz : Nat) (b : RawBuffer) (contents : Nat → α)
    (values : List α) :
    ((write_whole sz b contents values).1 =
      if values.length * sz < b.bytes then
        Except.error (BufferError.TooFewValues values.length b.len)
      else if b.bytes < values.length * sz then
        Except.error (BufferError.TooManyValues values.length b.len)
      else Except.ok ()) ∧
    (sz = 0 → b.bytes = 0 →
      (write_whole sz b contents values).1 = Except.ok ()) := by
  constructor
  · rcases Nat.lt_trichotomy (values.length * sz) b.bytes with h | h | h
    · rw [write_whole_of_lt sz b contents values h, if_pos h]
    · have h1 : ¬ values.length * sz < b.bytes := by
        rw [h]
        exact Nat.lt_irrefl b.bytes
      have h2 : ¬ b.bytes < values.length * sz := by
        rw [h]
        exact Nat.lt_irrefl b.bytes
      rw [write_whole_of_eq sz b contents values h, if_neg h1, if_neg h2]
    · have h1 : ¬ values.length * sz < b.bytes := Nat.lt_asymm h
      rw [write_whole_of_gt sz b contents values h, if_neg h1, if_pos h]
  · intro h0 hb0
    rw [write_whole_of_eq sz b contents values (by rw [h0, hb0, Nat.mul_zero])]

/-- C10 witness: a zero-sized-element buffer of element count 2 accepts a
3-element bulk write. -/
theorem write_whole_byte_counts_witness :
    (write_whole 0 { handle := 7, bytes := 0, len := 2 }
      (fun _ => (0 : Nat)) [5, 5, 5]).1 = Except.ok () :=
  (write_whole_byte_counts 0 { handle := 7, bytes := 0, len := 2 }
    (fun _ => (0 : Nat)) [5, 5, 5]).2 rfl rfl

end Luminance
